import Mathlib

/-!
Shallow embedding of the fymoney escrow program and the yield_vault
pooled-deposit ledger (Anchor/Rust, `programs/fymoney/src/lib.rs` and
`programs/yield_vault/src/lib.rs`).

Modelling conventions:
* `Pubkey` and the 32-byte `recipient_email_hash` are opaque keys used only
  for equality, modelled as `Nat`.
* `u64` amounts are `Nat`; the checked u64 arithmetic of the vault is
  modelled with an explicit `2 ^ 64` bound (`checked_add` / `checked_sub`).
* `i64` unix timestamps are `Int`.
* Each instruction handler becomes a pure function from the pre-state and
  its inputs to `Except err (record × Transfer)`: on success it yields the
  updated record together with the single SPL-token transfer it issues; on
  a failed `require!` it yields the error and nothing else (a failed Solana
  transaction reverts wholesale).
* Anchor account constraints that run before the handler body are made
  explicit where a claim depends on them: the `init` constraint on the
  escrow PDA (seeds = sender, recipient_email_hash) rejects an
  already-existing record before any handler check runs; this is the
  `AlreadyExists` case of `initialize_escrow` below.
-/

namespace Fymoney

/-- Opaque account identifier (Solana `Pubkey`), used only for equality. -/
abbrev Pubkey := Nat

/-- `EscrowStatus` from `programs/fymoney/src/lib.rs`. -/
inductive EscrowStatus where
  | Active
  | Claimed
  | Expired
deriving DecidableEq, Repr

/-- `EscrowAccount` from `programs/fymoney/src/lib.rs`.  The 32-byte email
hash is modelled as an opaque `Nat`. -/
structure EscrowAccount where
  sender : Pubkey
  recipient_email_hash : Nat
  recipient_wallet : Option Pubkey
  token_mint : Pubkey
  escrow_token_account : Pubkey
  amount : Nat
  created_at : Int
  expires_at : Int
  status : EscrowStatus
  bump : Nat
deriving DecidableEq, Repr

/-- `EscrowError` from `programs/fymoney/src/lib.rs`, extended with
`AlreadyExists` for the Anchor `init` constraint failing on an
already-initialized escrow PDA (raised before the handler body runs). -/
inductive EscrowError where
  | InvalidAmount
  | InvalidExpiration
  | ExpirationTooLong
  | EscrowNotActive
  | EscrowExpired
  | EscrowNotExpired
  | InvalidRecipient
  | UnauthorizedSender
  | AlreadyExists
deriving DecidableEq, Repr

/-- One SPL-token transfer (the `token::transfer` CPI): `amount` units move
from token account `source` to token account `dest`. -/
structure Transfer where
  source : Pubkey
  dest : Pubkey
  amount : Nat
deriving DecidableEq, Repr

/-- The 30-day cap used by `initialize_escrow`: `30 * 24 * 60 * 60` seconds. -/
def thirtyDays : Int := 30 * 24 * 60 * 60

/-- `initialize_escrow` from `programs/fymoney/src/lib.rs`.

`record_exists` is the Anchor account-resolution phase: the escrow PDA is
declared `init` with seeds `(sender, recipient_email_hash)`, so if a record
for that key already exists the transaction fails before the handler body
(modelled as `AlreadyExists`).  The handler body then reads the clock once
(`now`) and checks, in source order: `amount > 0` (`InvalidAmount`),
`expires_at > now` (`InvalidExpiration`),
`expires_at <= now + 30 days` (`ExpirationTooLong`).  On success it writes
the fresh record and transfers `amount` from the sender's token account to
the escrow's token account. -/
def initialize_escrow (record_exists : Bool) (sender : Pubkey)
    (recipient_email_hash : Nat) (token_mint escrow_token_account : Pubkey)
    (sender_token_account : Pubkey) (bump : Nat)
    (amount : Nat) (expires_at : Int) (now : Int) :
    Except EscrowError (EscrowAccount × Transfer) :=
  if record_exists then .error .AlreadyExists
  else if ¬ amount > 0 then .error .InvalidAmount
  else if ¬ expires_at > now then .error .InvalidExpiration
  else if ¬ expires_at ≤ now + thirtyDays then .error .ExpirationTooLong
  else
    .ok ({ sender := sender
           recipient_email_hash := recipient_email_hash
           recipient_wallet := none
           token_mint := token_mint
           escrow_token_account := escrow_token_account
           amount := amount
           created_at := now
           expires_at := expires_at
           status := .Active
           bump := bump },
         { source := sender_token_account
           dest := escrow_token_account
           amount := amount })

/-- `claim_escrow` from `programs/fymoney/src/lib.rs`.  `now` is the single
clock read; `recipient` is the claimant signer; `recipient_token_account`
is the claimant's associated token account.  Checks in source order:
`status == Active` (`EscrowNotActive`), `now <= expires_at`
(`EscrowExpired`), `recipient_wallet` unset or equal to the claimant
(`InvalidRecipient`).  On success it sets `status := Claimed`, binds
`recipient_wallet`, and transfers `amount` from the escrow token account to
the claimant's token account. -/
def claim_escrow (escrow : EscrowAccount) (now : Int) (recipient : Pubkey)
    (recipient_token_account : Pubkey) :
    Except EscrowError (EscrowAccount × Transfer) :=
  if ¬ escrow.status = .Active then .error .EscrowNotActive
  else if ¬ now ≤ escrow.expires_at then .error .EscrowExpired
  else if ¬ (escrow.recipient_wallet = none ∨
             escrow.recipient_wallet = some recipient) then
    .error .InvalidRecipient
  else
    .ok ({ escrow with status := .Claimed, recipient_wallet := some recipient },
         { source := escrow.escrow_token_account
           dest := recipient_token_account
           amount := escrow.amount })

/-- `reclaim_expired_escrow` from `programs/fymoney/src/lib.rs`.  `caller`
is the `sender` signer account of the instruction; `sender_token_account`
is that signer's associated token account.  Checks in source order:
`status == Active` (`EscrowNotActive`), `now > expires_at`
(`EscrowNotExpired`), `caller == escrow.sender` (`UnauthorizedSender`).
On success it sets `status := Expired` and transfers `amount` from the
escrow token account back to the sender's token account.

This function models the handler body only: the in-handler record state
and the transfer it issues.  The `ReclaimExpiredEscrow` accounts struct
additionally carries `close = sender` on the escrow record, so on a
successful transaction Anchor closes the record account afterwards (rent
to the sender, data wiped); `reclaim_tx` below models that full
transaction-level effect. -/
def reclaim_expired_escrow (escrow : EscrowAccount) (now : Int)
    (caller : Pubkey) (sender_token_account : Pubkey) :
    Except EscrowError (EscrowAccount × Transfer) :=
  if ¬ escrow.status = .Active then .error .EscrowNotActive
  else if ¬ now > escrow.expires_at then .error .EscrowNotExpired
  else if ¬ caller = escrow.sender then .error .UnauthorizedSender
  else
    .ok ({ escrow with status := .Expired },
         { source := escrow.escrow_token_account
           dest := sender_token_account
           amount := escrow.amount })

/-- The record after an instruction: the updated record on success, the old
record untouched on failure (a failed Solana transaction reverts). -/
def recordAfter {ε ρ τ : Type} (old : ρ) (r : Except ε (ρ × τ)) : ρ :=
  match r with
  | .ok (rec, _) => rec
  | .error _ => old

/-- The token transfers an instruction issued: exactly one on success, none
on failure. -/
def transfersOf {ε ρ τ : Type} (r : Except ε (ρ × τ)) : List τ :=
  match r with
  | .ok (_, t) => [t]
  | .error _ => []

/-- Escrow records reachable through the program: created by a successful
`initialize_escrow`, then mutated only by successful `claim_escrow` or
`reclaim_expired_escrow` calls. -/
inductive Reachable : EscrowAccount → Prop where
  | created : ∀ re s h tm eta sta b a e n rec tr,
      initialize_escrow re s h tm eta sta b a e n = .ok (rec, tr) →
      Reachable rec
  | claimed : ∀ rec now r rta rec2 tr, Reachable rec →
      claim_escrow rec now r rta = .ok (rec2, tr) →
      Reachable rec2
  | reclaimed : ∀ rec now c sta rec2 tr, Reachable rec →
      reclaim_expired_escrow rec now c sta = .ok (rec2, tr) →
      Reachable rec2

/-- Transaction-level escrow failure: either Anchor account resolution
fails because the escrow record account does not exist — it was never
created, or it was closed by the `close = sender` constraint on a
successful reclaim — or the handler body fails with an `EscrowError`. -/
inductive TxError where
  | AccountNotInitialized
  | handler : EscrowError → TxError
deriving DecidableEq, Repr

/-- The `ClaimEscrow` instruction at transaction level.  `account` is the
on-chain state of the escrow record account: Anchor first resolves it,
failing with `AccountNotInitialized` when it is absent, then runs the
`claim_escrow` handler.  `ClaimEscrow` carries no `close` constraint, so
on success the mutated record persists. -/
def claim_escrow_tx (account : Option EscrowAccount) (now : Int)
    (recipient rta : Pubkey) :
    Except TxError (Option EscrowAccount × Transfer) :=
  match account with
  | none => .error .AccountNotInitialized
  | some escrow =>
      match claim_escrow escrow now recipient rta with
      | .error e => .error (.handler e)
      | .ok (rec2, tr) => .ok (some rec2, tr)

/-- The `ReclaimExpiredEscrow` instruction at transaction level.  Anchor
resolves the escrow record account, the `reclaim_expired_escrow` handler
runs, and on success the `close = sender` constraint closes the record
account, so no escrow record persists after a successful reclaim. -/
def reclaim_tx (account : Option EscrowAccount) (now : Int)
    (caller sta : Pubkey) :
    Except TxError (Option EscrowAccount × Transfer) :=
  match account with
  | none => .error .AccountNotInitialized
  | some escrow =>
      match reclaim_expired_escrow escrow now caller sta with
      | .error e => .error (.handler e)
      | .ok (_, tr) => .ok (none, tr)

end Fymoney

namespace YieldVault

open Fymoney (Pubkey Transfer)

/-- `UserDeposit` from `programs/yield_vault/src/lib.rs`. -/
structure UserDeposit where
  user : Pubkey
  amount : Nat
deriving DecidableEq, Repr

/-- `VaultError` from `programs/yield_vault/src/lib.rs`. -/
inductive VaultError where
  | InvalidAmount
  | InsufficientFunds
deriving DecidableEq, Repr

/-- How a vault instruction fails: either a typed `VaultError` raised by a
`require!`, or a Rust panic (`Option::unwrap` on `None` after a checked
arithmetic operation), which aborts the transaction without a typed error. -/
inductive VaultFailure where
  | err : VaultError → VaultFailure
  | panicked : VaultFailure
deriving DecidableEq, Repr

/-- Rust `u64::checked_add`: `none` exactly when the mathematical sum does
not fit in 64 bits. -/
def checked_add (a b : Nat) : Option Nat :=
  if a + b < 2 ^ 64 then some (a + b) else none

/-- Rust `u64::checked_sub`: `none` exactly when the subtraction would
underflow. -/
def checked_sub (a b : Nat) : Option Nat :=
  if b ≤ a then some (a - b) else none

/-- `deposit` from `programs/yield_vault/src/lib.rs`.  Requires
`amount > 0` (`InvalidAmount`), then sets the record's `user` field and
updates its balance with `checked_add(..).unwrap()` — a panic, not a typed
error, if the sum overflows u64 — and transfers `amount` from the user's
token account into the vault's token account. -/
def deposit (user_deposit : UserDeposit) (user : Pubkey)
    (user_token_account vault_token_account : Pubkey) (amount : Nat) :
    Except VaultFailure (UserDeposit × Transfer) :=
  if ¬ amount > 0 then .error (.err .InvalidAmount)
  else
    match checked_add user_deposit.amount amount with
    | none => .error .panicked
    | some newAmount =>
        .ok ({ user := user, amount := newAmount },
             { source := user_token_account
               dest := vault_token_account
               amount := amount })

/-- `withdraw` from `programs/yield_vault/src/lib.rs`.  Requires
`amount > 0` (`InvalidAmount`) and `user_deposit.amount >= amount`
(`InsufficientFunds`), then updates the balance with
`checked_sub(..).unwrap()` and transfers `amount` from the vault's token
account back to the user's token account. -/
def withdraw (user_deposit : UserDeposit)
    (user_token_account vault_token_account : Pubkey) (amount : Nat) :
    Except VaultFailure (UserDeposit × Transfer) :=
  if ¬ amount > 0 then .error (.err .InvalidAmount)
  else if ¬ user_deposit.amount ≥ amount then .error (.err .InsufficientFunds)
  else
    match checked_sub user_deposit.amount amount with
    | none => .error .panicked
    | some newAmount =>
        .ok ({ user := user_deposit.user, amount := newAmount },
             { source := vault_token_account
               dest := user_token_account
               amount := amount })

end YieldVault

namespace Fymoney

/-! Helper lemmas characterizing the success cases of each transition. -/

/-- `initialize_escrow` succeeds exactly when no record exists and the three
handler checks pass, and then the record and transfer are determined. -/
theorem initialize_escrow_ok_iff (re : Bool) (s hsh : Nat)
    (tm eta sta : Pubkey) (b amount : Nat) (expires_at now : Int)
    (rec : EscrowAccount) (tr : Transfer) :
    initialize_escrow re s hsh tm eta sta b amount expires_at now
      = .ok (rec, tr) ↔
      (re = false ∧ 0 < amount ∧ now < expires_at ∧
       expires_at ≤ now + thirtyDays ∧
       rec = { sender := s, recipient_email_hash := hsh,
               recipient_wallet := none, token_mint := tm,
               escrow_token_account := eta, amount := amount,
               created_at := now, expires_at := expires_at,
               status := .Active, bump := b } ∧
       tr = { source := sta, dest := eta, amount := amount }) := by
  unfold initialize_escrow
  split
  · simp_all
  · split
    · simp_all
    · split
      · simp_all
      · split
        · simp_all
        · simp_all [eq_comm]
          omega

/-- `claim_escrow` succeeds exactly when the record is active, unexpired and
unbound or bound to the claimant, and then the result is determined. -/
theorem claim_escrow_ok_iff (escrow : EscrowAccount) (now : Int)
    (r rta : Pubkey) (rec2 : EscrowAccount) (tr : Transfer) :
    claim_escrow escrow now r rta = .ok (rec2, tr) ↔
      (escrow.status = .Active ∧ now ≤ escrow.expires_at ∧
       (escrow.recipient_wallet = none ∨
        escrow.recipient_wallet = some r) ∧
       rec2 = { escrow with status := .Claimed,
                            recipient_wallet := some r } ∧
       tr = { source := escrow.escrow_token_account, dest := rta,
              amount := escrow.amount }) := by
  unfold claim_escrow
  split
  · simp_all
  · split
    · simp_all
    · split
      · simp_all
      · simp_all [eq_comm, or_iff_not_imp_left]

/-- `reclaim_expired_escrow` succeeds exactly when the record is active and
expired and the caller is the sender, and then the result is determined. -/
theorem reclaim_ok_iff (escrow : EscrowAccount) (now : Int)
    (caller sta : Pubkey) (rec2 : EscrowAccount) (tr : Transfer) :
    reclaim_expired_escrow escrow now caller sta = .ok (rec2, tr) ↔
      (escrow.status = .Active ∧ escrow.expires_at < now ∧
       caller = escrow.sender ∧
       rec2 = { escrow with status := .Expired } ∧
       tr = { source := escrow.escrow_token_account, dest := sta,
              amount := escrow.amount }) := by
  unfold reclaim_expired_escrow
  split
  · simp_all
  · split
    · simp_all
    · split
      · simp_all
      · simp_all [eq_comm]

/-- On any error, no record mutation and no transfer is applied. -/
theorem error_no_effects {ε ρ τ : Type} (old : ρ) (x : Except ε (ρ × τ))
    (e : ε) (hx : x = .error e) :
    recordAfter old x = old ∧ transfersOf x = ([] : List τ) := by
  subst hx
  exact ⟨rfl, rfl⟩

/-- A sample active, unbound escrow record used by concrete witnesses. -/
def sampleActive : EscrowAccount :=
  { sender := 1, recipient_email_hash := 2, recipient_wallet := none,
    token_mint := 3, escrow_token_account := 4, amount := 500,
    created_at := 0, expires_at := 10, status := .Active, bump := 255 }

/-- A sample claimed (terminal) escrow record used by concrete witnesses. -/
def sampleClaimed : EscrowAccount :=
  { sampleActive with status := .Claimed, recipient_wallet := some 7 }

/-- C1: on a record whose status is not `Active` (i.e. `Claimed` or
`Expired`), both `claim_escrow` and `reclaim_expired_escrow` fail with
`EscrowNotActive`, leave the record unchanged and issue no transfer, so a
terminal status is never changed again. -/
theorem terminal_states_frozen (escrow : EscrowAccount) (now : Int)
    (recipient rta caller sta : Pubkey)
    (h : escrow.status ≠ .Active) :
    claim_escrow escrow now recipient rta = .error .EscrowNotActive ∧
    reclaim_expired_escrow escrow now caller sta = .error .EscrowNotActive ∧
    recordAfter escrow (claim_escrow escrow now recipient rta) = escrow ∧
    recordAfter escrow (reclaim_expired_escrow escrow now caller sta)
      = escrow ∧
    transfersOf (claim_escrow escrow now recipient rta)
      = ([] : List Transfer) ∧
    transfersOf (reclaim_expired_escrow escrow now caller sta)
      = ([] : List Transfer) := by
  have h1 : claim_escrow escrow now recipient rta
      = .error .EscrowNotActive := by
    unfold claim_escrow
    simp [h]
  have h2 : reclaim_expired_escrow escrow now caller sta
      = .error .EscrowNotActive := by
    unfold reclaim_expired_escrow
    simp [h]
  refine ⟨h1, h2, ?_, ?_, ?_, ?_⟩ <;> simp [h1, h2, recordAfter, transfersOf]

/-- Witness for C1 at a concrete claimed record. -/
theorem terminal_states_frozen_witness :
    claim_escrow sampleClaimed 6 7 8 = .error .EscrowNotActive ∧
    reclaim_expired_escrow sampleClaimed 6 9 10 = .error .EscrowNotActive ∧
    recordAfter sampleClaimed (claim_escrow sampleClaimed 6 7 8)
      = sampleClaimed ∧
    recordAfter sampleClaimed (reclaim_expired_escrow sampleClaimed 6 9 10)
      = sampleClaimed ∧
    transfersOf (claim_escrow sampleClaimed 6 7 8) = ([] : List Transfer) ∧
    transfersOf (reclaim_expired_escrow sampleClaimed 6 9 10)
      = ([] : List Transfer) :=
  terminal_states_frozen sampleClaimed 6 7 8 9 10 (by decide)

/-- C2: on an active record with `now ≤ expires_at`, a claim by a candidate
matching an unset or equal `recipient_wallet` succeeds, sets
`status := Claimed` and binds `recipient_wallet` to the claimant, issuing
the transfer of `amount` from the escrow token account to the claimant; a
claim by any other candidate fails with `InvalidRecipient` and changes
nothing (first-claim binding). -/
theorem claim_first_claim_binding (escrow : EscrowAccount) (now : Int)
    (recipient rta : Pubkey)
    (hact : escrow.status = .Active) (hexp : now ≤ escrow.expires_at) :
    ((escrow.recipient_wallet = none ∨
      escrow.recipient_wallet = some recipient) →
       claim_escrow escrow now recipient rta =
         .ok ({ escrow with status := .Claimed,
                            recipient_wallet := some recipient },
              { source := escrow.escrow_token_account, dest := rta,
                amount := escrow.amount })) ∧
    (∀ other, escrow.recipient_wallet = some other → other ≠ recipient →
       claim_escrow escrow now recipient rta = .error .InvalidRecipient ∧
       recordAfter escrow (claim_escrow escrow now recipient rta)
         = escrow ∧
       transfersOf (claim_escrow escrow now recipient rta)
         = ([] : List Transfer)) := by
  constructor
  · intro hrec
    exact (claim_escrow_ok_iff escrow now recipient rta _ _).mpr
      ⟨hact, hexp, hrec, rfl, rfl⟩
  · intro other hother hne
    have herr : claim_escrow escrow now recipient rta
        = .error .InvalidRecipient := by
      unfold claim_escrow
      simp [hact, hexp, hother, hne]
    obtain ⟨ha, hb⟩ := error_no_effects escrow _ _ herr
    exact ⟨herr, ha, hb⟩

/-- Witness for C2: a successful first claim on the sample active record. -/
theorem claim_first_claim_binding_witness :
    claim_escrow sampleActive 5 7 8 =
      .ok ({ sampleActive with status := .Claimed,
                               recipient_wallet := some 7 },
           { source := sampleActive.escrow_token_account, dest := 8,
             amount := sampleActive.amount }) :=
  (claim_first_claim_binding sampleActive 5 7 8 (by decide) (by decide)).1
    (Or.inl (by decide))

/-- C9: after any successful claim, every further claim on the resulting
record — by any candidate, including the now-bound recipient — fails with
`EscrowNotActive` and issues no transfer: re-claim is deterministic
rejection, never idempotent success, never a double payment. -/
theorem second_claim_rejected (escrow rec2 : EscrowAccount)
    (now now2 : Int) (r r2 rta rta2 : Pubkey) (tr : Transfer)
    (hclaim : claim_escrow escrow now r rta = .ok (rec2, tr)) :
    claim_escrow rec2 now2 r2 rta2 = .error .EscrowNotActive ∧
    transfersOf (claim_escrow rec2 now2 r2 rta2)
      = ([] : List Transfer) := by
  obtain ⟨-, -, -, hrec, -⟩ :=
    (claim_escrow_ok_iff escrow now r rta rec2 tr).mp hclaim
  subst hrec
  have herr : claim_escrow
      { escrow with status := .Claimed, recipient_wallet := some r }
      now2 r2 rta2 = .error .EscrowNotActive := by
    unfold claim_escrow
    simp
  exact ⟨herr, (error_no_effects escrow _ _ herr).2⟩

/-- Witness for C9: the bound recipient re-claims the sample record after
its successful claim and is rejected. -/
theorem second_claim_rejected_witness :
    claim_escrow sampleClaimed 20 7 8 = .error .EscrowNotActive ∧
    transfersOf (claim_escrow sampleClaimed 20 7 8)
      = ([] : List Transfer) :=
  second_claim_rejected sampleActive sampleClaimed 5 20 7 7 8 8
    { source := 4, dest := 8, amount := 500 } (by rfl)

/-- C10: in every reachable record, `recipient_wallet` is set exactly when
`status = Claimed`; in particular an active record always has
`recipient_wallet = none`, so the already-bound branch of the claim check
is never taken on an active record. -/
theorem recipient_bound_iff_claimed (rec : EscrowAccount)
    (hreach : Reachable rec) :
    (rec.recipient_wallet.isSome ↔ rec.status = .Claimed) ∧
    (rec.status = .Active → rec.recipient_wallet = none) := by
  induction hreach with
  | created re s hsh tm eta sta b a e n rec tr hinit =>
    obtain ⟨-, -, -, -, hrec, -⟩ :=
      (initialize_escrow_ok_iff re s hsh tm eta sta b a e n rec tr).mp hinit
    subst hrec
    simp
  | claimed rec now r rta rec2 tr hre hclaim ih =>
    obtain ⟨-, -, -, hrec2, -⟩ :=
      (claim_escrow_ok_iff rec now r rta rec2 tr).mp hclaim
    subst hrec2
    simp
  | reclaimed rec now c sta rec2 tr hre hclaim ih =>
    obtain ⟨hact, -, -, hrec2, -⟩ :=
      (reclaim_ok_iff rec now c sta rec2 tr).mp hclaim
    have hwallet : rec.recipient_wallet = none := ih.2 hact
    subst hrec2
    simp [hwallet]

/-- Witness for C10 at the concrete record created by a concrete
`initialize_escrow` call. -/
theorem recipient_bound_iff_claimed_witness :
    (sampleActive.recipient_wallet.isSome ↔
      sampleActive.status = .Claimed) ∧
    (sampleActive.status = .Active → sampleActive.recipient_wallet = none) :=
  recipient_bound_iff_claimed sampleActive
    (Reachable.created false 1 2 3 4 5 255 500 10 0 sampleActive
      { source := 5, dest := 4, amount := 500 } (by rfl))

/-- Counterexample to C3 as stated: with `amount = 0` and a record already
present for the key, the claimed check order predicts `InvalidAmount`, but
the account-existence failure fires first (the Anchor `init` constraint is
resolved before the handler body), so the call fails with
`AlreadyExists`. -/
theorem initialize_error_order_cex :
    initialize_escrow true 1 2 3 4 5 255 0 10 5 = .error .AlreadyExists ∧
    EscrowError.AlreadyExists ≠ EscrowError.InvalidAmount :=
  ⟨rfl, by decide⟩

/-- C3 (amended): `initialize_escrow` succeeds exactly when no record
exists for the key, `amount > 0`, `now < expires_at` and
`expires_at ≤ now + 30 days` (with a single clock read `now`), persisting
an `Active`, unbound record copying the inputs and transferring `amount`
into custody; failures are determined by the first violated check in the
order `AlreadyExists` (raised at account initialization, before the
handler), then `InvalidAmount`, `InvalidExpiration`,
`ExpirationTooLong`. -/
theorem initialize_escrow_spec (re : Bool) (s hsh : Nat)
    (tm eta sta : Pubkey) (b amount : Nat) (expires_at now : Int) :
    (re = false → 0 < amount → now < expires_at →
     expires_at ≤ now + thirtyDays →
       initialize_escrow re s hsh tm eta sta b amount expires_at now =
         .ok ({ sender := s, recipient_email_hash := hsh,
                recipient_wallet := none, token_mint := tm,
                escrow_token_account := eta, amount := amount,
                created_at := now, expires_at := expires_at,
                status := .Active, bump := b },
              { source := sta, dest := eta, amount := amount })) ∧
    (re = true →
       initialize_escrow re s hsh tm eta sta b amount expires_at now
         = .error .AlreadyExists) ∧
    (re = false → amount = 0 →
       initialize_escrow re s hsh tm eta sta b amount expires_at now
         = .error .InvalidAmount) ∧
    (re = false → 0 < amount → expires_at ≤ now →
       initialize_escrow re s hsh tm eta sta b amount expires_at now
         = .error .InvalidExpiration) ∧
    (re = false → 0 < amount → now < expires_at →
     now + thirtyDays < expires_at →
       initialize_escrow re s hsh tm eta sta b amount expires_at now
         = .error .ExpirationTooLong) ∧
    (∀ e, initialize_escrow re s hsh tm eta sta b amount expires_at now
        = .error e →
       transfersOf (initialize_escrow re s hsh tm eta sta b amount
         expires_at now) = ([] : List Transfer)) := by
  refine ⟨?_, ?_, ?_, ?_, ?_, ?_⟩
  · intro h1 h2 h3 h4
    exact (initialize_escrow_ok_iff re s hsh tm eta sta b amount
      expires_at now _ _).mpr ⟨h1, h2, h3, h4, rfl, rfl⟩
  · intro h1
    unfold initialize_escrow
    simp [h1]
  · intro h1 h2
    unfold initialize_escrow
    simp [h1, h2]
  · intro h1 h2 h3
    have hn : ¬ now < expires_at := not_lt.mpr h3
    unfold initialize_escrow
    simp [h1, h2, hn]
  · intro h1 h2 h3 h4
    have hn : ¬ expires_at ≤ now + thirtyDays := not_le.mpr h4
    unfold initialize_escrow
    simp [h1, h2, h3, hn]
  · intro e he
    rw [he]
    rfl

/-- Witness for C3 (amended): a concrete successful creation. -/
theorem initialize_escrow_spec_witness :
    initialize_escrow false 11 12 13 14 15 254 600 100 50 =
      .ok ({ sender := 11, recipient_email_hash := 12,
             recipient_wallet := none, token_mint := 13,
             escrow_token_account := 14, amount := 600,
             created_at := 50, expires_at := 100,
             status := .Active, bump := 254 },
           { source := 15, dest := 14, amount := 600 }) :=
  (initialize_escrow_spec false 11 12 13 14 15 254 600 100 50).1
    rfl (by decide) (by decide) (by decide)

/-- C4: `reclaim_expired_escrow` succeeds exactly when the record is
`Active`, `now > expires_at` and the caller is the original sender, setting
`status := Expired` and transferring `amount` from custody back to the
sender's token account; otherwise it fails — with `EscrowNotActive`,
`EscrowNotExpired` or `UnauthorizedSender`, checked in that order — and
changes nothing. -/
theorem reclaim_spec (escrow : EscrowAccount) (now : Int)
    (caller sta : Pubkey) :
    (escrow.status = .Active → escrow.expires_at < now →
     caller = escrow.sender →
       reclaim_expired_escrow escrow now caller sta =
         .ok ({ escrow with status := .Expired },
              { source := escrow.escrow_token_account, dest := sta,
                amount := escrow.amount })) ∧
    (escrow.status ≠ .Active →
       reclaim_expired_escrow escrow now caller sta
         = .error .EscrowNotActive) ∧
    (escrow.status = .Active → now ≤ escrow.expires_at →
       reclaim_expired_escrow escrow now caller sta
         = .error .EscrowNotExpired) ∧
    (escrow.status = .Active → escrow.expires_at < now →
     caller ≠ escrow.sender →
       reclaim_expired_escrow escrow now caller sta
         = .error .UnauthorizedSender) ∧
    (∀ e, reclaim_expired_escrow escrow now caller sta = .error e →
       recordAfter escrow (reclaim_expired_escrow escrow now caller sta)
         = escrow ∧
       transfersOf (reclaim_expired_escrow escrow now caller sta)
         = ([] : List Transfer)) := by
  refine ⟨?_, ?_, ?_, ?_, ?_⟩
  · intro h1 h2 h3
    exact (reclaim_ok_iff escrow now caller sta _ _).mpr
      ⟨h1, h2, h3, rfl, rfl⟩
  · intro h1
    unfold reclaim_expired_escrow
    simp [h1]
  · intro h1 h2
    have hn : ¬ escrow.expires_at < now := not_lt.mpr h2
    unfold reclaim_expired_escrow
    simp [h1, hn]
  · intro h1 h2 h3
    unfold reclaim_expired_escrow
    simp [h1, h2, h3]
  · intro e he
    exact error_no_effects escrow _ e he

/-- Witness for C4: the sender reclaims the sample record after expiry. -/
theorem reclaim_spec_witness :
    reclaim_expired_escrow sampleActive 11 1 9 =
      .ok ({ sampleActive with status := .Expired },
           { source := sampleActive.escrow_token_account, dest := 9,
             amount := sampleActive.amount }) :=
  (reclaim_spec sampleActive 11 1 9).1 rfl (by decide) rfl

/-- Counterexample to C5 as stated: a successful reclaim closes the escrow
record account (`close = sender`), so a late claim attempted afterwards
fails at Anchor account resolution with `AccountNotInitialized` — it never
reaches the handler and does not return `EscrowExpired`. -/
theorem late_claim_after_reclaim_cex :
    reclaim_tx (some sampleActive) 11 1 9 =
      .ok (none, { source := 4, dest := 9, amount := 500 }) ∧
    claim_escrow_tx none 12 7 8 = .error .AccountNotInitialized ∧
    TxError.AccountNotInitialized ≠ TxError.handler .EscrowExpired :=
  ⟨rfl, rfl, by decide⟩

/-- C5 (amended): a late claim (`now > expires_at`) against a persisted
`Active` record fails with `EscrowExpired`, and against a persisted
non-`Active` record (e.g. `Claimed`, which is never closed) with
`EscrowNotActive`; but a successful reclaim closes the escrow record
account via the `close = sender` constraint, so a late claim attempted
after the sender has reclaimed fails at Anchor account resolution with
`AccountNotInitialized` and never reaches the handler. -/
theorem claim_after_expiry (escrow : EscrowAccount) (now : Int)
    (r rta : Pubkey) (hexp : escrow.expires_at < now) :
    (escrow.status = .Active →
       claim_escrow_tx (some escrow) now r rta
         = .error (.handler .EscrowExpired)) ∧
    (escrow.status ≠ .Active →
       claim_escrow_tx (some escrow) now r rta
         = .error (.handler .EscrowNotActive)) ∧
    (∀ now0 caller sta acc2 tr,
       reclaim_tx (some escrow) now0 caller sta = .ok (acc2, tr) →
       acc2 = none ∧
       claim_escrow_tx acc2 now r rta = .error .AccountNotInitialized) := by
  have hlift : ∀ e, claim_escrow escrow now r rta = .error e →
      claim_escrow_tx (some escrow) now r rta = .error (.handler e) := by
    intro e he
    unfold claim_escrow_tx
    dsimp only
    rw [he]
  refine ⟨?_, ?_, ?_⟩
  · intro h1
    apply hlift
    have hn : ¬ now ≤ escrow.expires_at := not_le.mpr hexp
    unfold claim_escrow
    simp [h1, hn]
  · intro h1
    apply hlift
    unfold claim_escrow
    simp [h1]
  · intro now0 caller sta acc2 tr hre
    unfold reclaim_tx at hre
    dsimp only at hre
    cases hres : reclaim_expired_escrow escrow now0 caller sta with
    | error e =>
      rw [hres] at hre
      simp at hre
    | ok p =>
      obtain ⟨rec2, tr2⟩ := p
      rw [hres] at hre
      simp only [Except.ok.injEq, Prod.mk.injEq] at hre
      obtain ⟨hacc, -⟩ := hre
      subst hacc
      exact ⟨rfl, rfl⟩

/-- Witness for C5 (amended): a late claim on the still-persisted active
sample record fails with `EscrowExpired`. -/
theorem claim_after_expiry_witness :
    claim_escrow_tx (some sampleActive) 11 7 8
      = .error (.handler .EscrowExpired) :=
  (claim_after_expiry sampleActive 11 7 8 (by decide)).1 rfl

/-- C6: whenever any of the three escrow transitions fails one of its
checks, the call returns that error with the record unchanged and no
transfer issued — validation happens strictly before mutation and
transfer, all-or-nothing. -/
theorem errors_leave_state_unchanged (re : Bool) (s hsh : Nat)
    (tm eta sta0 : Pubkey) (b amount : Nat) (expires_at now : Int)
    (escrow : EscrowAccount) (r rta caller sta : Pubkey)
    (now2 now3 : Int) :
    (∀ e, initialize_escrow re s hsh tm eta sta0 b amount expires_at now
        = .error e →
       transfersOf (initialize_escrow re s hsh tm eta sta0 b amount
         expires_at now) = ([] : List Transfer)) ∧
    (∀ e, claim_escrow escrow now2 r rta = .error e →
       recordAfter escrow (claim_escrow escrow now2 r rta) = escrow ∧
       transfersOf (claim_escrow escrow now2 r rta)
         = ([] : List Transfer)) ∧
    (∀ e, reclaim_expired_escrow escrow now3 caller sta = .error e →
       recordAfter escrow (reclaim_expired_escrow escrow now3 caller sta)
         = escrow ∧
       transfersOf (reclaim_expired_escrow escrow now3 caller sta)
         = ([] : List Transfer)) := by
  refine ⟨?_, ?_, ?_⟩
  · intro e he
    rw [he]
    rfl
  · intro e he
    exact error_no_effects escrow _ e he
  · intro e he
    exact error_no_effects escrow _ e he

/-- Witness for C6: all three transitions failing at concrete inputs leave
no effect. -/
theorem errors_leave_state_unchanged_witness :
    transfersOf (initialize_escrow true 1 2 3 4 5 255 500 10 0)
      = ([] : List Transfer) ∧
    (recordAfter sampleClaimed (claim_escrow sampleClaimed 3 7 8)
       = sampleClaimed ∧
     transfersOf (claim_escrow sampleClaimed 3 7 8)
       = ([] : List Transfer)) ∧
    (recordAfter sampleClaimed (reclaim_expired_escrow sampleClaimed 30 1 9)
       = sampleClaimed ∧
     transfersOf (reclaim_expired_escrow sampleClaimed 30 1 9)
       = ([] : List Transfer)) :=
  ⟨(errors_leave_state_unchanged true 1 2 3 4 5 255 500 10 0
      sampleClaimed 7 8 1 9 3 30).1 .AlreadyExists rfl,
   (errors_leave_state_unchanged true 1 2 3 4 5 255 500 10 0
      sampleClaimed 7 8 1 9 3 30).2.1 .EscrowNotActive rfl,
   (errors_leave_state_unchanged true 1 2 3 4 5 255 500 10 0
      sampleClaimed 7 8 1 9 3 30).2.2 .EscrowNotActive rfl⟩

end Fymoney

namespace YieldVault

open Fymoney (Transfer)

/-- `deposit` succeeds exactly when `amount > 0` and the new balance fits
in u64, and then the updated record and transfer are determined. -/
theorem deposit_ok_iff (ud : UserDeposit) (user uta vta : Fymoney.Pubkey)
    (amount : Nat) (rec : UserDeposit) (tr : Transfer) :
    deposit ud user uta vta amount = .ok (rec, tr) ↔
      (0 < amount ∧ ud.amount + amount < 2 ^ 64 ∧
       rec = { user := user, amount := ud.amount + amount } ∧
       tr = { source := uta, dest := vta, amount := amount }) := by
  unfold deposit checked_add
  by_cases h0 : amount > 0
  · by_cases hov : ud.amount + amount < 2 ^ 64
    · simp [h0, hov, eq_comm, -Nat.reducePow]
    · simp [h0, hov, -Nat.reducePow]
  · simp [h0]

/-- `withdraw` succeeds exactly when `amount > 0` and the balance covers
it, and then the updated record and transfer are determined. -/
theorem withdraw_ok_iff (ud : UserDeposit) (uta vta : Fymoney.Pubkey)
    (amount : Nat) (rec : UserDeposit) (tr : Transfer) :
    withdraw ud uta vta amount = .ok (rec, tr) ↔
      (0 < amount ∧ amount ≤ ud.amount ∧
       rec = { user := ud.user, amount := ud.amount - amount } ∧
       tr = { source := vta, dest := uta, amount := amount }) := by
  unfold withdraw checked_sub
  by_cases h0 : amount > 0
  · by_cases hle : ud.amount ≥ amount
    · simp [h0, hle, eq_comm]
    · simp [h0, hle]
  · simp [h0]

/-- Counterexample to C7 as stated: a deposit whose new balance would
exceed the u64 maximum does not surface a typed `ArithmeticOverflow`
failure — the `VaultError` enum has no such variant — it aborts with a
Rust panic (`checked_add(..).unwrap()` on `None`). -/
theorem overflow_panics_cex :
    deposit { user := 1, amount := 2 ^ 64 - 1 } 1 2 3 1
      = .error .panicked ∧
    VaultFailure.panicked ≠ .err .InvalidAmount ∧
    VaultFailure.panicked ≠ .err .InsufficientFunds :=
  ⟨rfl, by decide, by decide⟩

/-- C7 (amended): all arithmetic on `amount` uses checked u64 operations
and never silently wraps: a deposit whose balance plus amount exceeds the
u64 maximum aborts (via a panic on `unwrap`, there being no typed
`ArithmeticOverflow` variant), a successful deposit records the exact
mathematical sum, and `withdraw`'s checked subtraction can never fail
because it is guarded by the balance check. -/
theorem checked_arithmetic_no_wrap (ud : UserDeposit)
    (user uta vta : Fymoney.Pubkey) (amount : Nat) (hpos : 0 < amount) :
    (2 ^ 64 ≤ ud.amount + amount →
       deposit ud user uta vta amount = .error .panicked) ∧
    (∀ rec tr, deposit ud user uta vta amount = .ok (rec, tr) →
       rec.amount = ud.amount + amount) ∧
    (withdraw ud uta vta amount ≠ .error .panicked) := by
  refine ⟨?_, ?_, ?_⟩
  · intro hov
    have hn : ¬ ud.amount + amount < 2 ^ 64 := not_lt.mpr hov
    unfold deposit checked_add
    simp [hpos, hn, -Nat.reducePow]
  · intro rec tr h
    obtain ⟨-, -, hrec, -⟩ :=
      (deposit_ok_iff ud user uta vta amount rec tr).mp h
    subst hrec
    rfl
  · intro h
    unfold withdraw checked_sub at h
    by_cases hle : ud.amount ≥ amount
    · simp [hpos, hle] at h
    · simp [hpos, hle] at h

/-- Witness for C7 (amended): a concrete overflowing deposit panics. -/
theorem checked_arithmetic_no_wrap_witness :
    deposit { user := 4, amount := 2 ^ 64 - 2 } 4 5 6 3
      = .error .panicked :=
  (checked_arithmetic_no_wrap { user := 4, amount := 2 ^ 64 - 2 } 4 5 6 3
    (by decide)).1 (by decide)

/-- C8: for `amount > 0`, `withdraw` fails with `InsufficientFunds`
exactly when `amount` exceeds the recorded balance, a successful withdraw
decreases the recorded balance by exactly `amount` (transferring it from
the vault to the user), and a successful deposit increases the recorded
balance by exactly `amount` (transferring it from the user to the
vault). -/
theorem vault_balance_spec (ud : UserDeposit)
    (user uta vta : Fymoney.Pubkey) (amount : Nat) (hpos : 0 < amount) :
    (withdraw ud uta vta amount = .error (.err .InsufficientFunds) ↔
       ud.amount < amount) ∧
    (∀ rec tr, withdraw ud uta vta amount = .ok (rec, tr) →
       rec.amount + amount = ud.amount ∧
       tr = { source := vta, dest := uta, amount := amount }) ∧
    (∀ rec tr, deposit ud user uta vta amount = .ok (rec, tr) →
       rec.amount = ud.amount + amount ∧
       tr = { source := uta, dest := vta, amount := amount }) := by
  refine ⟨?_, ?_, ?_⟩
  · constructor
    · intro h
      by_contra hge
      push_neg at hge
      have hok := (withdraw_ok_iff ud uta vta amount
        { user := ud.user, amount := ud.amount - amount }
        { source := vta, dest := uta, amount := amount }).mpr
        ⟨hpos, hge, rfl, rfl⟩
      rw [hok] at h
      exact absurd h (by simp)
    · intro hlt
      have hn : ¬ ud.amount ≥ amount := not_le.mpr hlt
      unfold withdraw
      simp [hpos, hn]
  · intro rec tr h
    obtain ⟨-, hle, hrec, htr⟩ :=
      (withdraw_ok_iff ud uta vta amount rec tr).mp h
    subst hrec
    exact ⟨by simp; omega, htr⟩
  · intro rec tr h
    obtain ⟨-, -, hrec, htr⟩ :=
      (deposit_ok_iff ud user uta vta amount rec tr).mp h
    subst hrec
    exact ⟨rfl, htr⟩

/-- Witness for C8 at a concrete ledger entry. -/
theorem vault_balance_spec_witness :
    (withdraw { user := 1, amount := 100 } 2 3 30
       = .error (.err .InsufficientFunds) ↔
     ({ user := 1, amount := 100 } : UserDeposit).amount < 30) ∧
    (∀ rec tr, withdraw { user := 1, amount := 100 } 2 3 30
        = .ok (rec, tr) →
       rec.amount + 30 = ({ user := 1, amount := 100 } : UserDeposit).amount ∧
       tr = { source := 3, dest := 2, amount := 30 }) ∧
    (∀ rec tr, deposit { user := 1, amount := 100 } 1 2 3 30
        = .ok (rec, tr) →
       rec.amount = ({ user := 1, amount := 100 } : UserDeposit).amount + 30 ∧
       tr = { source := 2, dest := 3, amount := 30 }) :=
  vault_balance_spec { user := 1, amount := 100 } 1 2 3 30 (by decide)

end YieldVault
